import Mathlib

/-!
Shallow embedding of the Signal Hill Motel pricing/booking backend
(src/server.js) and proofs about it.

Modelling conventions:
* JS numbers are modelled as exact rationals (`ℚ`); `Math.round` and
  `Math.floor` become `⌊· + 1/2⌋` and `⌊·⌋` on `ℚ`.
* `Date` values are integer milliseconds since the epoch (`ℤ`), as
  produced by `Date.now()`.
* Every `Math.random()` call is reified as an explicit rational draw in
  `[0, 1)`, passed as a parameter (one draw per call site, streams
  `ℕ → ℚ` where a loop draws repeatedly).
* The PostgreSQL tables `room_inventory` and `room_bookings` are lists of
  records; SQL statements are translated query by query.
* JS comparisons against a possibly-`undefined` value are modelled on
  `Option`: any `<` / `>` / `<=` with `undefined` is `false`.
-/

namespace Dot

/-- JS `Math.round` on a rational: round half toward positive infinity. -/
def jsRound (q : ℚ) : ℤ := ⌊q + 1/2⌋

/-- JS `Math.floor` on a rational. -/
def jsFloor (q : ℚ) : ℤ := ⌊q⌋

/-- JS `a < b` where `a` may be `undefined`: `undefined < b` is `false`. -/
def jsLtU (a : Option ℚ) (b : ℚ) : Bool :=
  match a with
  | none => false
  | some x => decide (x < b)

/-- JS `a > b` where `a` may be `undefined`: `undefined > b` is `false`. -/
def jsGtU (a : Option ℚ) (b : ℚ) : Bool :=
  match a with
  | none => false
  | some x => decide (b < x)

/-- JS `a <= b` where `a` may be `undefined` (e.g. a failed object lookup):
`undefined <= b` is `false`. -/
def jsLeU (a : Option ℕ) (b : ℕ) : Bool :=
  match a with
  | none => false
  | some x => decide (x ≤ b)

/-- The `dayMap` object lookup in `calculateDynamicPrice`
(src/server.js lines 26-30); an unknown day string yields `undefined`. -/
def dayMap (day_of_week : String) : Option ℕ :=
  if day_of_week = "Sunday" then some 0
  else if day_of_week = "Monday" then some 1
  else if day_of_week = "Tuesday" then some 2
  else if day_of_week = "Wednesday" then some 3
  else if day_of_week = "Thursday" then some 4
  else if day_of_week = "Friday" then some 5
  else if day_of_week = "Saturday" then some 6
  else none

/-- Section 1 of `calculateDynamicPrice` (lines 42-69): the occupancy
multiplier table, keyed on `dayNum <= 2` and `occupancy_decimal`. -/
def occupancy_multiplier (dayNum : Option ℕ) (occupancy_decimal : ℚ) : ℚ :=
  if jsLeU dayNum 2 then
    if 80/100 ≤ occupancy_decimal then 110/100
    else if 60/100 ≤ occupancy_decimal then 1
    else if 40/100 ≤ occupancy_decimal then 90/100
    else 80/100
  else
    if 85/100 ≤ occupancy_decimal then 115/100
    else if 70/100 ≤ occupancy_decimal then 108/100
    else if 50/100 ≤ occupancy_decimal then 1
    else if 30/100 ≤ occupancy_decimal then 95/100
    else 88/100

/-- Section 2 of `calculateDynamicPrice` (lines 71-83): time-of-day bands. -/
def time_multiplier (time_of_day : ℤ) : ℚ :=
  if 14 ≤ time_of_day ∧ time_of_day ≤ 18 then 105/100
  else if 19 ≤ time_of_day ∧ time_of_day ≤ 22 then 108/100
  else if 23 ≤ time_of_day ∨ time_of_day ≤ 2 then 110/100
  else if 6 ≤ time_of_day ∧ time_of_day ≤ 10 then 98/100
  else 1

/-- Section 3 of `calculateDynamicPrice` (lines 85-97): traffic bands. -/
def traffic_multiplier (user_traffic : ℚ) : ℚ :=
  if 25 ≤ user_traffic then 106/100
  else if 15 ≤ user_traffic then 103/100
  else if 8 ≤ user_traffic then 1
  else if 3 ≤ user_traffic then 98/100
  else 95/100

/-- Section 4 of `calculateDynamicPrice` (lines 99-101): the market
fluctuation computed from the `Math.random()` draw `rand`. -/
def small_fluctuation (rand : ℚ) : ℚ :=
  max (995/1000) (min (103/100) (1 + (rand - 1/2) * (6/100)))

/-- Section 5 of `calculateDynamicPrice` (lines 103-111): momentum bias from
`previous_price / base_price`. -/
def momentum_multiplier (base_price previous_price : ℚ) : ℚ :=
  if 110/100 < previous_price / base_price then 98/100
  else if previous_price / base_price < 90/100 then 102/100
  else 1

/-- The object returned by `calculateDynamicPrice` (lines 127-133); the
`day_range` display string is reconstructible from `min_price`/`max_price`. -/
structure PriceResult where
  new_price : ℤ
  price_change : ℚ
  min_price : ℚ
  max_price : ℚ
deriving Repr, DecidableEq

/-- `calculateDynamicPrice` (src/server.js lines 16-134).  The internal
`Math.random()` call of line 100 is reified as the explicit draw `rand`. -/
def calculateDynamicPrice (base_price : ℚ) (day_of_week : String)
    (current_occupancy : ℚ) (time_of_day : ℤ) (previous_price : ℚ)
    (user_traffic : ℚ) (rand : ℚ) : PriceResult :=
  let dayNum := dayMap day_of_week
  let min_price : ℚ := if jsLeU dayNum 2 then 75 else 80
  let max_price : ℚ := 99
  let new_price :=
    base_price * occupancy_multiplier dayNum (current_occupancy / 100)
      * time_multiplier time_of_day * traffic_multiplier user_traffic
      * small_fluctuation rand * momentum_multiplier base_price previous_price
  let clamped := max min_price (min max_price new_price)
  let rounded := jsRound clamped
  { new_price := rounded
    price_change := (rounded : ℚ) - previous_price
    min_price := min_price
    max_price := max_price }

lemma calculateDynamicPrice_min_price (b : ℚ) (d : String) (o : ℚ) (t : ℤ)
    (p u r : ℚ) :
    (calculateDynamicPrice b d o t p u r).min_price
      = if jsLeU (dayMap d) 2 then (75 : ℚ) else 80 := rfl

lemma calculateDynamicPrice_max_price (b : ℚ) (d : String) (o : ℚ) (t : ℤ)
    (p u r : ℚ) :
    (calculateDynamicPrice b d o t p u r).max_price = 99 := rfl

lemma calculateDynamicPrice_new_price (b : ℚ) (d : String) (o : ℚ) (t : ℤ)
    (p u r : ℚ) :
    (calculateDynamicPrice b d o t p u r).new_price
      = jsRound (max (if jsLeU (dayMap d) 2 then (75 : ℚ) else 80)
          (min 99 (b * occupancy_multiplier (dayMap d) (o / 100)
            * time_multiplier t * traffic_multiplier u
            * small_fluctuation r * momentum_multiplier b p))) := rfl

/-- Rounding a value clamped into the integer interval `[m, M]` stays in
`[m, M]`. -/
lemma jsRound_clamp_bounds (m M : ℤ) (h : m ≤ M) (x : ℚ) :
    m ≤ jsRound (max (m : ℚ) (min (M : ℚ) x)) ∧
      jsRound (max (m : ℚ) (min (M : ℚ) x)) ≤ M := by
  have hMq : ((m : ℚ)) ≤ (M : ℚ) := by exact_mod_cast h
  have hc1 : (m : ℚ) ≤ max (m : ℚ) (min (M : ℚ) x) := le_max_left _ _
  have hc2 : max (m : ℚ) (min (M : ℚ) x) ≤ (M : ℚ) :=
    max_le hMq (min_le_left _ _)
  constructor
  · rw [jsRound, Int.le_floor]
    linarith
  · rw [jsRound, ← Int.lt_add_one_iff, Int.floor_lt]
    push_cast
    linarith

/-- C1: for every valid input (base price, day string, occupancy percentage,
hour, previous price, traffic, `Math.random` draw), `calculateDynamicPrice`
returns a whole-dollar price (`new_price : ℤ`) satisfying
`min_price(day) ≤ new_price ≤ max_price(day)`, where Sunday/Monday/Tuesday
have bounds `[75, 99]` and Wednesday through Saturday have bounds `[80, 99]`. -/
theorem calculateDynamicPrice_day_bounds (base : ℚ) (day : String) (occ : ℚ)
    (t : ℤ) (prev traffic rand : ℚ)
    (hbase : 0 < base) (hocc0 : 0 ≤ occ) (hocc1 : occ ≤ 100)
    (ht0 : 0 ≤ t) (ht1 : t ≤ 23) (hprev : 0 ≤ prev) (htraf : 0 ≤ traffic)
    (hr0 : 0 ≤ rand) (hr1 : rand < 1) :
    ((calculateDynamicPrice base day occ t prev traffic rand).min_price
        ≤ ((calculateDynamicPrice base day occ t prev traffic rand).new_price : ℚ)
      ∧ ((calculateDynamicPrice base day occ t prev traffic rand).new_price : ℚ)
        ≤ (calculateDynamicPrice base day occ t prev traffic rand).max_price)
    ∧ (day = "Sunday" ∨ day = "Monday" ∨ day = "Tuesday" →
        (calculateDynamicPrice base day occ t prev traffic rand).min_price = 75
        ∧ (calculateDynamicPrice base day occ t prev traffic rand).max_price = 99)
    ∧ (day = "Wednesday" ∨ day = "Thursday" ∨ day = "Friday" ∨ day = "Saturday" →
        (calculateDynamicPrice base day occ t prev traffic rand).min_price = 80
        ∧ (calculateDynamicPrice base day occ t prev traffic rand).max_price = 99) := by
  refine ⟨?_, ?_, ?_⟩
  · rw [calculateDynamicPrice_min_price, calculateDynamicPrice_max_price,
      calculateDynamicPrice_new_price]
    by_cases hd : jsLeU (dayMap day) 2 = true
    · rw [if_pos hd]
      have hb := jsRound_clamp_bounds 75 99 (by norm_num)
        (base * occupancy_multiplier (dayMap day) (occ / 100)
          * time_multiplier t * traffic_multiplier traffic
          * small_fluctuation rand * momentum_multiplier base prev)
      constructor
      · exact_mod_cast hb.1
      · exact_mod_cast hb.2
    · rw [if_neg hd]
      have hb := jsRound_clamp_bounds 80 99 (by norm_num)
        (base * occupancy_multiplier (dayMap day) (occ / 100)
          * time_multiplier t * traffic_multiplier traffic
          * small_fluctuation rand * momentum_multiplier base prev)
      constructor
      · exact_mod_cast hb.1
      · exact_mod_cast hb.2
  · intro hday
    rcases hday with rfl | rfl | rfl <;> exact ⟨rfl, rfl⟩
  · intro hday
    rcases hday with rfl | rfl | rfl | rfl <;> exact ⟨rfl, rfl⟩

/-- Witness for C1 at the spec's bucket-A scenario: `basePrice = 86`,
`day = Monday`, `occupancy = 10%`, `hour = 9`. -/
theorem calculateDynamicPrice_day_bounds_witness :
    (((calculateDynamicPrice 86 "Monday" 10 9 86 5 (1/2)).min_price
        ≤ ((calculateDynamicPrice 86 "Monday" 10 9 86 5 (1/2)).new_price : ℚ)
      ∧ ((calculateDynamicPrice 86 "Monday" 10 9 86 5 (1/2)).new_price : ℚ)
        ≤ (calculateDynamicPrice 86 "Monday" 10 9 86 5 (1/2)).max_price)
    ∧ ("Monday" = "Sunday" ∨ "Monday" = "Monday" ∨ "Monday" = "Tuesday" →
        (calculateDynamicPrice 86 "Monday" 10 9 86 5 (1/2)).min_price = 75
        ∧ (calculateDynamicPrice 86 "Monday" 10 9 86 5 (1/2)).max_price = 99)
    ∧ ("Monday" = "Wednesday" ∨ "Monday" = "Thursday" ∨ "Monday" = "Friday"
        ∨ "Monday" = "Saturday" →
        (calculateDynamicPrice 86 "Monday" 10 9 86 5 (1/2)).min_price = 80
        ∧ (calculateDynamicPrice 86 "Monday" 10 9 86 5 (1/2)).max_price = 99)) :=
  calculateDynamicPrice_day_bounds 86 "Monday" 10 9 86 5 (1/2)
    (by norm_num) (by norm_num) (by norm_num) (by norm_num) (by norm_num)
    (by norm_num) (by norm_num) (by norm_num) (by norm_num)

/-- C8: with the `Math.random()` draw reified as the parameter `rand`,
`calculateDynamicPrice` is deterministic: identical inputs and an identical
draw produce identical results. -/
theorem calculateDynamicPrice_deterministic (base : ℚ) (day : String)
    (occ : ℚ) (t : ℤ) (prev traffic r₁ r₂ : ℚ) (h : r₁ = r₂) :
    calculateDynamicPrice base day occ t prev traffic r₁
      = calculateDynamicPrice base day occ t prev traffic r₂ := by
  rw [h]

/-- Witness for C8 at the spec's bucket-B scenario inputs. -/
theorem calculateDynamicPrice_deterministic_witness :
    calculateDynamicPrice 86 "Saturday" 95 15 86 20 (1/2)
      = calculateDynamicPrice 86 "Saturday" 95 15 86 20 (1/2) :=
  calculateDynamicPrice_deterministic 86 "Saturday" 95 15 86 20 (1/2) (1/2) rfl

/-- One row of the `room_inventory` table (database/schema.sql); the columns
not read by any route in src/server.js are omitted. -/
structure RoomInventory where
  id : ℕ
  room_type : String
  current_price : ℚ
  rooms_available : ℤ
  pricing_period : String
  status : String
  last_price_update : ℤ
  view_count : ℤ
deriving Repr, DecidableEq

/-- One row of the `room_bookings` table (database/schema.sql). -/
structure RoomBooking where
  id : ℕ
  room_inventory_id : ℕ
  user_email : String
  booked_at : ℤ
  expires_at : ℤ
  check_in_date : String
  locked_price : ℚ
  status : String
  rooms_booked : ℤ
deriving Repr, DecidableEq

/-- The database state touched by src/server.js. -/
structure DB where
  room_inventory : List RoomInventory
  room_bookings : List RoomBooking
deriving Repr, DecidableEq

/-- Responses of `POST /api/rooms/:id/book` (src/server.js lines 316-372). -/
inductive BookResp
  /-- 400 "Email is required" (line 322). -/
  | emailRequired
  /-- 404 "Room not found or unavailable" (line 331). -/
  | notFound
  /-- 400 "No rooms available for this type" (line 338). -/
  | noRooms
  /-- 200 success body with the inserted booking (lines 357-366). -/
  | booked (booking : RoomBooking) (locked_price : ℚ) (rooms_left : ℤ)
deriving Repr, DecidableEq

/-- HTTP status code of each booking response. -/
def BookResp.statusCode : BookResp → ℕ
  | .emailRequired => 400
  | .notFound => 404
  | .noRooms => 400
  | .booked _ _ _ => 200

/-- `POST /api/rooms/:id/book` (src/server.js lines 316-372) run without
interleaving.  `now` is `Date.now()` in milliseconds.  The SERIAL booking id
is modelled as the current number of booking rows; `booked_at` and `status`
take their schema defaults `CURRENT_TIMESTAMP` and `'active'`. -/
def bookRoom (db : DB) (id : ℕ) (user_email : Option String)
    (check_in_date : String) (now : ℤ) : BookResp × DB :=
  match user_email with
  | none => (.emailRequired, db)
  | some email =>
    match db.room_inventory.find? (fun r => r.id == id && r.status == "active") with
    | none => (.notFound, db)
    | some room =>
      if room.rooms_available ≤ 0 then (.noRooms, db)
      else
        let expiresAt := now + 30 * 60 * 1000
        let db1 : DB :=
          { db with room_inventory := db.room_inventory.map fun r =>
              if r.id == id then { r with rooms_available := r.rooms_available - 1 }
              else r }
        let booking : RoomBooking :=
          { id := db.room_bookings.length
            room_inventory_id := id
            user_email := email
            booked_at := now
            expires_at := expiresAt
            check_in_date := check_in_date
            locked_price := room.current_price
            status := "active"
            rooms_booked := 1 }
        (.booked booking room.current_price (room.rooms_available - 1),
          { db1 with room_bookings := db1.room_bookings ++ [booking] })

/-- C4 (amended): a booking request against a found, active unit with
`rooms_available ≤ 0` returns the no-capacity error — HTTP 400 in this code,
not 409 — and leaves the database completely unchanged. -/
theorem bookRoom_noCapacity (db : DB) (id : ℕ) (email check_in : String)
    (now : ℤ) (room : RoomInventory)
    (hfind : db.room_inventory.find?
        (fun r => r.id == id && r.status == "active") = some room)
    (hav : room.rooms_available ≤ 0) :
    bookRoom db id (some email) check_in now = (.noRooms, db)
      ∧ BookResp.noRooms.statusCode = 400 := by
  constructor
  · unfold bookRoom
    rw [hfind]
    exact if_pos hav
  · rfl

/-- A fully-booked active unit, for the C4 input. -/
def unitC4 : RoomInventory :=
  { id := 1, room_type := "Standard Room", current_price := 83
    rooms_available := 0, pricing_period := "morning", status := "active"
    last_price_update := 0, view_count := 0 }

/-- Database holding only `unitC4`. -/
def dbC4 : DB := { room_inventory := [unitC4], room_bookings := [] }

/-- C4 counterexample: booking a unit with `rooms_available = 0` is rejected
with HTTP status 400, not the claimed 409 ConflictError mapping. -/
theorem bookRoom_noCapacity_status_not_409 :
    (bookRoom dbC4 1 (some "guest@example.com") "2025-01-01" 0).1.statusCode = 400
      ∧ ¬ (bookRoom dbC4 1 (some "guest@example.com") "2025-01-01" 0).1.statusCode
          = 409 := by
  constructor
  · rfl
  · decide

/-- Witness for C4 (amended) at `dbC4`. -/
theorem bookRoom_noCapacity_witness :
    bookRoom dbC4 1 (some "guest@example.com") "2025-01-01" 0
        = (.noRooms, dbC4)
      ∧ BookResp.noRooms.statusCode = 400 :=
  bookRoom_noCapacity dbC4 1 "guest@example.com" "2025-01-01" 0 unitC4
    (by decide) (by decide)

/-- C9: a successful booking on an available unit appends exactly one hold
whose `locked_price` is the unit's `current_price` at creation, whose status
is `active`, and whose `expires_at` is `booked_at + 30` minutes (in ms). -/
theorem bookRoom_success_hold (db : DB) (id : ℕ) (email check_in : String)
    (now : ℤ) (room : RoomInventory)
    (hfind : db.room_inventory.find?
        (fun r => r.id == id && r.status == "active") = some room)
    (hav : 0 < room.rooms_available) :
    ∃ b : RoomBooking,
      (bookRoom db id (some email) check_in now).2.room_bookings
          = db.room_bookings ++ [b]
        ∧ b.locked_price = room.current_price
        ∧ b.status = "active"
        ∧ b.booked_at = now
        ∧ b.expires_at = b.booked_at + 30 * 60 * 1000 := by
  unfold bookRoom
  rw [hfind]
  simp only [if_neg (not_le.mpr hav)]
  exact ⟨_, rfl, rfl, rfl, rfl, rfl⟩

/-- An available active unit, for the C9 witness. -/
def unitC9 : RoomInventory :=
  { id := 2, room_type := "Standard Room", current_price := 91
    rooms_available := 3, pricing_period := "night", status := "active"
    last_price_update := 0, view_count := 0 }

/-- Database holding only `unitC9`. -/
def dbC9 : DB := { room_inventory := [unitC9], room_bookings := [] }

/-- Witness for C9: booking `unitC9` at `now = 1000` ms. -/
theorem bookRoom_success_hold_witness :
    ∃ b : RoomBooking,
      (bookRoom dbC9 2 (some "kai@example.com") "2025-02-02" 1000).2.room_bookings
          = dbC9.room_bookings ++ [b]
        ∧ b.locked_price = unitC9.current_price
        ∧ b.status = "active"
        ∧ b.booked_at = 1000
        ∧ b.expires_at = b.booked_at + 30 * 60 * 1000 :=
  bookRoom_success_hold dbC9 2 "kai@example.com" "2025-02-02" 1000 unitC9
    (by decide) (by decide)

/-- Program counter of one in-flight `POST /api/rooms/:id/book` request,
restricted to its two availability-relevant database operations: the
`SELECT` snapshot of the unit (src/server.js lines 325-334) and the
availability check plus unguarded decrement `UPDATE` (lines 337-347). -/
inductive BookPC
  /-- The request has not yet executed its SELECT. -/
  | start
  /-- The SELECT returned; `snapshot` is the `rooms_available` it read. -/
  | selected (snapshot : ℤ)
  /-- The request responded; `succeeded` is true for the 200 booking path. -/
  | done (succeeded : Bool)
deriving Repr, DecidableEq

/-- Shared state for interleaved booking requests against one unit: the
unit's `rooms_available` column, the number of inserted booking rows, and
each request's program counter. -/
structure BookRace where
  rooms_available : ℤ
  bookings_inserted : ℕ
  pcs : List BookPC
deriving Repr, DecidableEq

/-- One atomic database step of request `i`.  The availability check uses the
request's own SELECT snapshot, and the UPDATE decrements unconditionally
(`SET rooms_available = rooms_available - 1` with no availability guard),
exactly as in the code; the check and the decrement of distinct requests may
interleave.  (Merging each request's check, UPDATE and INSERT into a single
step only removes interleavings, so any behaviour exhibited here also exists
with the finer-grained awaits of the source.) -/
def bookRaceStep (s : BookRace) (i : ℕ) : BookRace :=
  match s.pcs[i]? with
  | none => s
  | some .start => { s with pcs := s.pcs.set i (.selected s.rooms_available) }
  | some (.selected v) =>
    if v ≤ 0 then { s with pcs := s.pcs.set i (.done false) }
    else
      { s with rooms_available := s.rooms_available - 1
               bookings_inserted := s.bookings_inserted + 1
               pcs := s.pcs.set i (.done true) }
  | some (.done _) => s

/-- Run a schedule: the list names which request performs its next atomic
step at each instant. -/
def bookRaceRun (s : BookRace) : List ℕ → BookRace
  | [] => s
  | i :: rest => bookRaceRun (bookRaceStep s i) rest

/-- C2 refutation: with `rooms_available = 1` and two concurrent booking
requests, the interleaving SELECT₁, SELECT₂, UPDATE₁, UPDATE₂ lets both
requests pass the availability check on their stale snapshots: both succeed,
two bookings are inserted and availability ends at `-1`.  The claimed atomic
check-and-decrement (exactly one success, availability never below 0) does
not hold of this code. -/
theorem bookRace_double_booking :
    bookRaceRun
        { rooms_available := 1, bookings_inserted := 0, pcs := [.start, .start] }
        [0, 1, 0, 1]
      = { rooms_available := -1, bookings_inserted := 2
          pcs := [.done true, .done true] } := by
  decide

/-- The price recomputed for one room inside the 1-minute cron sweep
(src/server.js lines 149-163): occupancy is derived from the room's stored
`rooms_available` out of 15 rooms, traffic is `view_count` with a simulated
fallback when `view_count` is falsy (`0`), and the result comes from
`calculateDynamicPrice` with base 86.  `traf` is the `Math.random()` draw of
the traffic fallback and `fluct` the draw inside `calculateDynamicPrice`. -/
def sweepRoomPrice (currentDay : String) (currentHour : ℤ)
    (room : RoomInventory) (traf fluct : ℚ) : ℤ :=
  let occupancyPercent : ℚ := ((15 - (room.rooms_available : ℚ)) / 15) * 100
  let userTraffic : ℚ :=
    if room.view_count == 0 then ((jsFloor (traf * 15) + 5 : ℤ) : ℚ)
    else (room.view_count : ℚ)
  (calculateDynamicPrice 86 currentDay occupancyPercent currentHour
    room.current_price userTraffic fluct).new_price

/-- The `UPDATE room_inventory SET current_price = $1, last_price_update =
NOW() WHERE id = $2` of the sweep (lines 166-169). -/
def applyPriceUpdate (db : DB) (roomId : ℕ) (price : ℤ) (now : ℤ) : DB :=
  { db with room_inventory := db.room_inventory.map fun r =>
      if r.id == roomId then
        { r with current_price := (price : ℚ), last_price_update := now }
      else r }

/-- The `for (const room of rooms)` loop of the cron job over the SELECTed
active rooms.  `updateFails i` models the i-th iteration's `pool.query`
throwing (a transient persistence error): the single try/catch wrapped
around the whole loop (lines 138 and 176-178) then catches it outside the
loop, so the remaining iterations are abandoned. -/
def cronSweepGo (currentDay : String) (currentHour now : ℤ)
    (traf fluct : ℕ → ℚ) (updateFails : ℕ → Bool) :
    List RoomInventory → ℕ → DB → DB
  | [], _, db => db
  | room :: rest, i, db =>
    if updateFails i then db
    else
      cronSweepGo currentDay currentHour now traf fluct updateFails rest (i + 1)
        (applyPriceUpdate db room.id
          (sweepRoomPrice currentDay currentHour room (traf i) (fluct i)) now)

/-- The `cron.schedule` pricing sweep (src/server.js lines 137-179) — the
only periodic job in the program.  It SELECTs the active rooms once, then
updates each room's price in order until the list ends or an iteration
throws. -/
def cronSweep (db : DB) (currentDay : String) (currentHour now : ℤ)
    (traf fluct : ℕ → ℚ) (updateFails : ℕ → Bool) : DB :=
  cronSweepGo currentDay currentHour now traf fluct updateFails
    (db.room_inventory.filter (fun r => r.status == "active")) 0 db

lemma applyPriceUpdate_room_bookings (db : DB) (roomId : ℕ) (price now : ℤ) :
    (applyPriceUpdate db roomId price now).room_bookings = db.room_bookings :=
  rfl

lemma applyPriceUpdate_rooms_available (db : DB) (roomId : ℕ)
    (price now : ℤ) :
    (applyPriceUpdate db roomId price now).room_inventory.map
        RoomInventory.rooms_available
      = db.room_inventory.map RoomInventory.rooms_available := by
  simp only [applyPriceUpdate, List.map_map, Function.comp]
  refine List.map_congr_left ?_
  intro r _
  show RoomInventory.rooms_available
      (if (r.id == roomId) = true then
        { r with current_price := (price : ℚ), last_price_update := now }
      else r)
    = r.rooms_available
  split <;> rfl

lemma cronSweepGo_preserves (currentDay : String) (currentHour now : ℤ)
    (traf fluct : ℕ → ℚ) (updateFails : ℕ → Bool) :
    ∀ (l : List RoomInventory) (i : ℕ) (db : DB),
      (cronSweepGo currentDay currentHour now traf fluct updateFails l i db).room_bookings
          = db.room_bookings
        ∧ (cronSweepGo currentDay currentHour now traf fluct updateFails l i db).room_inventory.map
            RoomInventory.rooms_available
          = db.room_inventory.map RoomInventory.rooms_available := by
  intro l
  induction l with
  | nil => intro i db; exact ⟨rfl, rfl⟩
  | cons room rest ih =>
    intro i db
    unfold cronSweepGo
    split
    · exact ⟨rfl, rfl⟩
    · have h := ih (i + 1)
        (applyPriceUpdate db room.id
          (sweepRoomPrice currentDay currentHour room (traf i) (fluct i)) now)
      exact ⟨h.1.trans (applyPriceUpdate_room_bookings ..),
        h.2.trans (applyPriceUpdate_rooms_available ..)⟩

/-- C3 refutation: the program's only periodic job is the pricing sweep, and
for every database, day, hour, randomness and failure pattern it leaves the
`room_bookings` table untouched and every unit's `rooms_available`
unchanged.  No hold is ever transitioned to `expired` and no capacity is
ever reclaimed, contrary to the claimed `expireSweep` contract. -/
theorem cronSweep_no_expiry_no_reclaim (db : DB) (currentDay : String)
    (currentHour now : ℤ) (traf fluct : ℕ → ℚ) (updateFails : ℕ → Bool) :
    (cronSweep db currentDay currentHour now traf fluct updateFails).room_bookings
        = db.room_bookings
      ∧ (cronSweep db currentDay currentHour now traf fluct updateFails).room_inventory.map
          RoomInventory.rooms_available
        = db.room_inventory.map RoomInventory.rooms_available :=
  cronSweepGo_preserves currentDay currentHour now traf fluct updateFails
    (db.room_inventory.filter (fun r => r.status == "active")) 0 db

/-- The longest prefix of the room list whose iterations do not fail, with
iteration indices starting at `i`. -/
def takeUntilFail (updateFails : ℕ → Bool) :
    ℕ → List RoomInventory → List RoomInventory
  | _, [] => []
  | i, room :: rest =>
    if updateFails i then []
    else room :: takeUntilFail updateFails (i + 1) rest

lemma cronSweepGo_eq_takeUntilFail (currentDay : String)
    (currentHour now : ℤ) (traf fluct : ℕ → ℚ) (updateFails : ℕ → Bool) :
    ∀ (l : List RoomInventory) (i : ℕ) (db : DB),
      cronSweepGo currentDay currentHour now traf fluct updateFails l i db
        = cronSweepGo currentDay currentHour now traf fluct (fun _ => false)
            (takeUntilFail updateFails i l) i db := by
  intro l
  induction l with
  | nil => intro i db; rfl
  | cons room rest ih =>
    intro i db
    unfold cronSweepGo takeUntilFail
    split
    · rfl
    · simpa using ih (i + 1)
        (applyPriceUpdate db room.id
          (sweepRoomPrice currentDay currentHour room (traf i) (fluct i)) now)

/-- C7 (amended): a failing iteration is caught outside the loop, so the
sweep terminates normally, but it aborts the rest of the pass — the sweep
updates exactly the active units strictly before the first failing
iteration, and every unit from the failing one on keeps its previous price
and timestamp. -/
theorem cronSweep_aborts_rest_on_failure (db : DB) (currentDay : String)
    (currentHour now : ℤ) (traf fluct : ℕ → ℚ) (updateFails : ℕ → Bool) :
    cronSweep db currentDay currentHour now traf fluct updateFails
      = cronSweepGo currentDay currentHour now traf fluct (fun _ => false)
          (takeUntilFail updateFails 0
            (db.room_inventory.filter (fun r => r.status == "active"))) 0 db :=
  cronSweepGo_eq_takeUntilFail currentDay currentHour now traf fluct
    updateFails (db.room_inventory.filter (fun r => r.status == "active")) 0 db

/-- First active unit of the C7 database; its update fails. -/
def unitC7a : RoomInventory :=
  { id := 1, room_type := "Standard Room", current_price := 83
    rooms_available := 5, pricing_period := "morning", status := "active"
    last_price_update := 0, view_count := 5 }

/-- Second active unit of the C7 database; the claim requires it to still be
processed after the first unit's failure. -/
def unitC7b : RoomInventory :=
  { id := 2, room_type := "Standard Room", current_price := 91
    rooms_available := 5, pricing_period := "night", status := "active"
    last_price_update := 0, view_count := 5 }

/-- Database with the two active units of the C7 counterexample. -/
def dbC7 : DB := { room_inventory := [unitC7a, unitC7b], room_bookings := [] }

/-- C7 counterexample: when the first iteration's persistence call fails,
the sweep run at `now = 777` leaves the second active unit unprocessed —
its `last_price_update` stays 0 instead of 777 — so a single unit's failure
does abort the processing of the remaining units. -/
theorem cronSweep_failure_skips_rest :
    (cronSweep dbC7 "Monday" 9 777 (fun _ => 1/2) (fun _ => 1/2)
        (fun i => i == 0)).room_inventory.map RoomInventory.last_price_update
      = [0, 0] ∧ (0 : ℤ) ≠ 777 := by
  constructor
  · rfl
  · decide

/-- One row returned by `GET /api/bookings/:email` (src/server.js lines
379-392): all `room_bookings` columns, the joined room columns, the motel
constants and the computed `seconds_remaining`. -/
structure BookingRow where
  id : ℕ
  room_inventory_id : ℕ
  user_email : String
  booked_at : ℤ
  expires_at : ℤ
  check_in_date : String
  locked_price : ℚ
  status : String
  rooms_booked : ℤ
  room_type : String
  pricing_period : String
  rooms_available : ℤ
  motel_name : String
  motel_address : String
  seconds_remaining : ℚ
deriving Repr, DecidableEq

/-- Build one joined row; `seconds_remaining` is
`EXTRACT(EPOCH FROM (rb.expires_at - NOW()))`, i.e. the millisecond
difference over 1000. -/
def bookingRow (b : RoomBooking) (r : RoomInventory) (now : ℤ) : BookingRow :=
  { id := b.id
    room_inventory_id := b.room_inventory_id
    user_email := b.user_email
    booked_at := b.booked_at
    expires_at := b.expires_at
    check_in_date := b.check_in_date
    locked_price := b.locked_price
    status := b.status
    rooms_booked := b.rooms_booked
    room_type := r.room_type
    pricing_period := r.pricing_period
    rooms_available := r.rooms_available
    motel_name := "Signal Hill Motel"
    motel_address := "Signal Hill, CA"
    seconds_remaining := ((b.expires_at - now : ℤ) : ℚ) / 1000 }

/-- `ORDER BY rb.expires_at ASC`: insert into a sorted list. -/
def insertByExpires (x : BookingRow) : List BookingRow → List BookingRow
  | [] => [x]
  | y :: ys =>
    if x.expires_at ≤ y.expires_at then x :: y :: ys
    else y :: insertByExpires x ys

/-- `ORDER BY rb.expires_at ASC` as insertion sort. -/
def sortByExpires : List BookingRow → List BookingRow
  | [] => []
  | x :: xs => insertByExpires x (sortByExpires xs)

lemma mem_insertByExpires (a x : BookingRow) (l : List BookingRow) :
    a ∈ insertByExpires x l ↔ a = x ∨ a ∈ l := by
  induction l with
  | nil => simp [insertByExpires]
  | cons y ys ih =>
    unfold insertByExpires
    split
    · simp [List.mem_cons]
    · simp only [List.mem_cons, ih]
      tauto

lemma mem_sortByExpires (a : BookingRow) (l : List BookingRow) :
    a ∈ sortByExpires l ↔ a ∈ l := by
  induction l with
  | nil => simp [sortByExpires]
  | cons x xs ih =>
    unfold sortByExpires
    rw [mem_insertByExpires]
    simp [List.mem_cons, ih]

/-- `GET /api/bookings/:email` (src/server.js lines 375-400): the SQL query
`SELECT rb.*, ri…, seconds_remaining FROM room_bookings rb JOIN
room_inventory ri ON rb.room_inventory_id = ri.id WHERE rb.user_email = $1
AND rb.status = 'active' ORDER BY rb.expires_at ASC`, with `now` the
database `NOW()` in ms. -/
def listBookings (db : DB) (email : String) (now : ℤ) : List BookingRow :=
  sortByExpires
    ((db.room_bookings.filter
        (fun b => b.user_email == email && b.status == "active")).flatMap
      (fun b =>
        (db.room_inventory.filter (fun r => r.id == b.room_inventory_id)).map
          (fun r => bookingRow b r now)))

/-- C5: every hold returned by the bookings read has persisted status
`active`, and its reported `seconds_remaining` is negative exactly when its
`expires_at` precedes the read time — so a hold past its expiry is reported
as logically expired (non-positive remaining time) even though no sweep ever
rewrites its status. -/
theorem listBookings_lazy_expiry (db : DB) (email : String) (now : ℤ)
    (row : BookingRow) (hmem : row ∈ listBookings db email now) :
    (row.expires_at < now ↔ row.seconds_remaining < 0)
      ∧ row.status = "active" := by
  unfold listBookings at hmem
  rw [mem_sortByExpires, List.mem_flatMap] at hmem
  obtain ⟨b, hb, hrow⟩ := hmem
  rw [List.mem_map] at hrow
  obtain ⟨r, hr, rfl⟩ := hrow
  rw [List.mem_filter] at hb
  have hcond := hb.2
  simp only [Bool.and_eq_true, beq_iff_eq] at hcond
  constructor
  · show b.expires_at < now ↔ ((b.expires_at - now : ℤ) : ℚ) / 1000 < 0
    rw [div_lt_iff₀ (by norm_num : (0:ℚ) < 1000), zero_mul, Int.cast_lt_zero,
      sub_neg]
  · exact hcond.2

/-- Active unit joined against in the C5 witness. -/
def unitC5 : RoomInventory :=
  { id := 3, room_type := "Standard Room", current_price := 88
    rooms_available := 4, pricing_period := "night", status := "active"
    last_price_update := 0, view_count := 0 }

/-- A hold created at `t0 = 0` with `expires_at = t0 + 30` minutes whose
persisted status is still `active`. -/
def holdC5 : RoomBooking :=
  { id := 0, room_inventory_id := 3, user_email := "kai@example.com"
    booked_at := 0, expires_at := 1800000, check_in_date := "2025-03-01"
    locked_price := 88, status := "active", rooms_booked := 1 }

/-- Database for the C5 witness. -/
def dbC5 : DB := { room_inventory := [unitC5], room_bookings := [holdC5] }

/-- Witness for C5: the spec scenario — the hold expiring at `t0 + 30` min
read at `t0 + 31` min (no sweep has run) is reported with negative
`seconds_remaining` while its persisted status is still `active`. -/
theorem listBookings_lazy_expiry_witness :
    ((bookingRow holdC5 unitC5 1860000).expires_at < 1860000
        ↔ (bookingRow holdC5 unitC5 1860000).seconds_remaining < 0)
      ∧ (bookingRow holdC5 unitC5 1860000).status = "active" :=
  listBookings_lazy_expiry dbC5 "kai@example.com" 1860000
    (bookingRow holdC5 unitC5 1860000)
    (by
      have h : listBookings dbC5 "kai@example.com" 1860000
          = [bookingRow holdC5 unitC5 1860000] := rfl
      rw [h]
      exact List.mem_singleton.mpr rfl)

/-- Responses of `POST /api/admin/override-price` (src/server.js lines
182-213). -/
inductive OverrideResp
  /-- 400 "Price must be between …" (lines 192-196). -/
  | outOfRange (min_price max_price : ℚ)
  /-- 200 success message (lines 204-207). -/
  | ok (price : ℚ)
  /-- 500 "Failed to set price override" (lines 209-212). -/
  | failed
deriving Repr, DecidableEq

/-- HTTP status code of each override response. -/
def OverrideResp.statusCode : OverrideResp → ℕ
  | .outOfRange _ _ => 400
  | .ok _ => 200
  | .failed => 500

/-- `POST /api/admin/override-price` (src/server.js lines 182-213).
`roomId` and `price` come from `req.body` and may be absent (`undefined`).
JS comparisons with `undefined` are `false`, so a missing price passes the
range check of line 192 and reaches the UPDATE of lines 199-202, where
binding `undefined` inserts SQL `NULL` into the `NOT NULL` column
`current_price` (database/schema.sql) — the raised error is caught and
answered with 500.  A missing `roomId` makes `WHERE id = NULL` match no
rows.  `dayNum` is `new Date().getDay()`. -/
def overridePrice (db : DB) (roomId : Option ℕ) (price : Option ℚ)
    (dayNum : ℕ) : OverrideResp × DB :=
  let min_price : ℚ := if dayNum ≤ 2 then 75 else 80
  let max_price : ℚ := 99
  if jsLtU price min_price || jsGtU price max_price then
    (.outOfRange min_price max_price, db)
  else
    match price with
    | none => (.failed, db)
    | some p =>
      match roomId with
      | none => (.ok p, db)
      | some rid =>
        (.ok p,
          { db with room_inventory := db.room_inventory.map fun r =>
              if r.id == rid then { r with current_price := p } else r })

/-- C6 (amended): for a submitted price `p`, the override returns the 400
validation error exactly when `p` lies outside the current day's
`[min_price, 99]` bounds (min 75 on days 0-2, else 80) and then mutates
nothing; an in-range `p` is written as the unit's `current_price`. -/
theorem overridePrice_range_validation (db : DB) (rid : ℕ) (p : ℚ)
    (dayNum : ℕ) :
    ((p < (if dayNum ≤ 2 then (75 : ℚ) else 80) ∨ (99 : ℚ) < p) →
      (overridePrice db (some rid) (some p) dayNum).1.statusCode = 400
        ∧ (overridePrice db (some rid) (some p) dayNum).2 = db)
    ∧ (((if dayNum ≤ 2 then (75 : ℚ) else 80) ≤ p ∧ p ≤ 99) →
      (overridePrice db (some rid) (some p) dayNum).1.statusCode = 200
        ∧ (overridePrice db (some rid) (some p) dayNum).2.room_inventory
          = db.room_inventory.map
              (fun r => if r.id == rid then { r with current_price := p }
                else r)) := by
  constructor
  · intro hout
    have hc : (jsLtU (some p) (if dayNum ≤ 2 then (75 : ℚ) else 80)
        || jsGtU (some p) 99) = true := by
      rcases hout with h | h
      · simp [jsLtU, h]
      · simp [jsGtU, h]
    unfold overridePrice
    rw [if_pos hc]
    exact ⟨rfl, rfl⟩
  · intro hin
    have hc : (jsLtU (some p) (if dayNum ≤ 2 then (75 : ℚ) else 80)
        || jsGtU (some p) 99) = false := by
      simp [jsLtU, jsGtU, not_lt.mpr hin.1, not_lt.mpr hin.2]
    unfold overridePrice
    rw [if_neg (by simp [hc])]
    exact ⟨rfl, rfl⟩

/-- Active unit the C6 requests target. -/
def unitC6 : RoomInventory :=
  { id := 1, room_type := "Standard Room", current_price := 85
    rooms_available := 5, pricing_period := "morning", status := "active"
    last_price_update := 0, view_count := 0 }

/-- Database for the C6 input. -/
def dbC6 : DB := { room_inventory := [unitC6], room_bookings := [] }

/-- C6 counterexample: a request with the `price` field missing is not
rejected by validation — the `undefined` comparisons are false, so the
handler reaches the persistence write and fails there with 500, not the
claimed ValidationError 400. -/
theorem overridePrice_missing_price_not_validation :
    (overridePrice dbC6 (some 1) none 6).1.statusCode = 500
      ∧ ¬ (overridePrice dbC6 (some 1) none 6).1.statusCode = 400 := by
  constructor
  · rfl
  · decide

/-- Witness for C6 (amended) at the spec scenario: overriding to 60 on a
bucket-B day (`dayNum = 6`, Saturday) returns the 400 validation error and
mutates nothing. -/
theorem overridePrice_range_validation_witness :
    (overridePrice dbC6 (some 1) (some 60) 6).1.statusCode = 400
      ∧ (overridePrice dbC6 (some 1) (some 60) 6).2 = dbC6 :=
  (overridePrice_range_validation dbC6 1 60 6).1 (Or.inl (by norm_num))

/-- One row returned by `GET /api/rooms` (src/server.js lines 275-306): the
spread room columns with `rooms_available` overridden by the freshly drawn
"realistic" count, plus the motel constants and FOMO fields. -/
structure RoomRow where
  id : ℕ
  room_type : String
  current_price : ℚ
  pricing_period : String
  status : String
  motel_name : String
  motel_address : String
  total_rooms : ℤ
  rooms_available : ℤ
  active_bookings : ℤ
  period_start : String
  period_end : String
  price_range : String
  urgency_message : String
deriving Repr, DecidableEq

/-- Row built for one active room by `GET /api/rooms`; `rand` is that map
iteration's `Math.random()` draw, so `realisticRoomsLeft =
Math.floor(rand * 7) + 2`. -/
def roomRow (min_price max_price : ℚ) (room : RoomInventory) (rand : ℚ) :
    RoomRow :=
  let realisticRoomsLeft : ℤ := jsFloor (rand * 7) + 2
  { id := room.id
    room_type := room.room_type
    current_price := room.current_price
    pricing_period := room.pricing_period
    status := room.status
    motel_name := "Signal Hill Motel"
    motel_address := "Signal Hill, CA"
    total_rooms := 15
    rooms_available := realisticRoomsLeft
    active_bookings := 15 - realisticRoomsLeft
    period_start :=
      if room.pricing_period == "afternoon" then "15:00:00" else "23:00:00"
    period_end :=
      if room.pricing_period == "afternoon" then "23:00:00" else "11:00:00"
    price_range := s!"${min_price}-${max_price}"
    urgency_message :=
      if realisticRoomsLeft ≤ 3 then
        s!"🚨 ONLY {realisticRoomsLeft} ROOMS LEFT!"
      else if realisticRoomsLeft ≤ 5 then
        s!"⚡ {realisticRoomsLeft} rooms remaining"
      else s!"{realisticRoomsLeft} rooms available" }

/-- The `result.rows.map(…)` of `GET /api/rooms`, with one fresh draw per
row: the row at position `i` uses draw `rands (k + i)`. -/
def getRoomsGo (min_price max_price : ℚ) (rands : ℕ → ℚ) :
    List RoomInventory → ℕ → List RoomRow
  | [], _ => []
  | room :: rest, k =>
    roomRow min_price max_price room (rands k)
      :: getRoomsGo min_price max_price rands rest (k + 1)

/-- `GET /api/rooms` (src/server.js lines 265-313): SELECT the active rooms
(a pure read — no UPDATE or INSERT is issued) and decorate each with a
freshly drawn "realistic" availability.  `dayNum` is
`new Date().getDay()`. -/
def getRooms (db : DB) (dayNum : ℕ) (rands : ℕ → ℚ) : List RoomRow :=
  getRoomsGo (if dayNum ≤ 2 then 75 else 80) 99 rands
    (db.room_inventory.filter (fun r => r.status == "active")) 0

lemma getRoomsGo_getElem (min_price max_price : ℚ) (rands : ℕ → ℚ) :
    ∀ (l : List RoomInventory) (k i : ℕ),
      (getRoomsGo min_price max_price rands l k)[i]?
        = l[i]?.map (fun r => roomRow min_price max_price r (rands (k + i))) := by
  intro l
  induction l with
  | nil => intro k i; rfl
  | cons room rest ih =>
    intro k i
    cases i with
    | zero => simp [getRoomsGo]
    | succ j =>
      have hk : k + (j + 1) = (k + 1) + j := by omega
      simp only [getRoomsGo, List.getElem?_cons_succ, hk]
      exact ih (k + 1) j

/-- C10: the row at position `i` of the public room listing reports
`rooms_available = Math.floor(rands i * 7) + 2` — a value between 2 and 8
determined by the fresh draw alone, regardless of the unit's stored
availability — and `active_bookings = 15 - rooms_available`; the read issues
no mutation. -/
theorem getRooms_random_availability (db : DB) (dayNum : ℕ) (rands : ℕ → ℚ)
    (i : ℕ) (row : RoomRow)
    (hrow : (getRooms db dayNum rands)[i]? = some row)
    (h0 : 0 ≤ rands i) (h1 : rands i < 1) :
    2 ≤ row.rooms_available ∧ row.rooms_available ≤ 8
      ∧ row.active_bookings = 15 - row.rooms_available
      ∧ row.rooms_available = jsFloor (rands i * 7) + 2 := by
  rw [getRooms, getRoomsGo_getElem, Nat.zero_add] at hrow
  rcases hopt : (db.room_inventory.filter (fun r => r.status == "active"))[i]?
    with _ | r
  · rw [hopt] at hrow
    cases hrow
  · rw [hopt] at hrow
    have hr2 : roomRow (if dayNum ≤ 2 then (75 : ℚ) else 80) 99 r (rands i)
        = row := Option.some.inj hrow
    subst hr2
    have hfl0 : 0 ≤ jsFloor (rands i * 7) := by
      rw [jsFloor]
      exact Int.floor_nonneg.mpr (by positivity)
    have hfl6 : jsFloor (rands i * 7) ≤ 6 := by
      rw [jsFloor, ← Int.lt_add_one_iff, Int.floor_lt]
      push_cast
      nlinarith
    refine ⟨?_, ?_, rfl, rfl⟩
    · show 2 ≤ jsFloor (rands i * 7) + 2
      omega
    · show jsFloor (rands i * 7) + 2 ≤ 8
      omega

/-- Active unit of the C10 witness database. -/
def unitC10 : RoomInventory :=
  { id := 4, room_type := "Standard Room", current_price := 95
    rooms_available := 15, pricing_period := "morning", status := "active"
    last_price_update := 0, view_count := 0 }

/-- Database for the C10 witness. -/
def dbC10 : DB := { room_inventory := [unitC10], room_bookings := [] }

/-- Witness for C10: with draw `1/2`, the single listed room reports
`rooms_available = 5` (and `active_bookings = 10`), not its stored 15. -/
theorem getRooms_random_availability_witness :
    2 ≤ (roomRow 80 99 unitC10 (1/2)).rooms_available
      ∧ (roomRow 80 99 unitC10 (1/2)).rooms_available ≤ 8
      ∧ (roomRow 80 99 unitC10 (1/2)).active_bookings
        = 15 - (roomRow 80 99 unitC10 (1/2)).rooms_available
      ∧ (roomRow 80 99 unitC10 (1/2)).rooms_available
        = jsFloor ((1/2 : ℚ) * 7) + 2 :=
  getRooms_random_availability dbC10 6 (fun _ => 1/2) 0
    (roomRow 80 99 unitC10 (1/2)) rfl (by norm_num) (by norm_num)

end Dot
